import Mathlib

set_option linter.unusedVariables false
set_option maxRecDepth 8192

/- Verification development for the Swift-Alliance message codec core: a
shallow embedding of `swift_messages.py` and of the codec parts of
`swift_alliance_streamlit.py`.  Python `Decimal` values are modelled by the
`Dec` structure (sign, coefficient, scale).  The system clock, the
`uuid`-based reference generation and the value-date to `YYMMDD` conversion
are nondeterministic environment inputs of the source; they are passed in as
explicit string parameters. -/

/-- A finite decimal number as Python's `decimal.Decimal` carries it: a sign
flag, a natural coefficient and a decimal scale.  The denoted value is
`(-1)^sign * coeff / 10^scale`. -/
structure Dec where
  sign : Bool
  coeff : Nat
  scale : Nat
deriving DecidableEq

/-- The character for the decimal digit `n` (`n < 10`). -/
def digitChar (n : Nat) : Char := Char.ofNat (48 + n)

/-- Numeric value of a digit character. -/
def digitVal (c : Char) : Nat := c.toNat - 48

/-- Fuel-driven rendering of a natural number in base 10, most significant
digit first.  Mirrors how `format(_, 'f')` renders the integral digits. -/
def natDigitsAux : Nat → Nat → List Char
  | 0, _ => []
  | fuel + 1, n =>
    if n < 10 then [digitChar n]
    else natDigitsAux fuel (n / 10) ++ [digitChar (n % 10)]

/-- Decimal digits of `n`, most significant first (`natDigits 0 = ['0']`). -/
def natDigits (n : Nat) : List Char := natDigitsAux (n + 1) n

/-- Value of a digit string, most significant digit first. -/
def digitsToNat (cs : List Char) : Nat :=
  cs.foldl (fun acc c => 10 * acc + digitVal c) 0

/-- The two fractional digits of a cent count (`r < 100`). -/
def pad2 (r : Nat) : List Char := [digitChar (r / 10), digitChar (r % 10)]

/-- Coefficient of `amount.quantize(Decimal('0.01'), rounding=ROUND_HALF_UP)`
(`swift_messages.py` line 17, `swift_alliance_streamlit.py` line 220): the
cent count obtained by rounding the magnitude half-up (`ROUND_HALF_UP` rounds
ties away from zero, so the magnitude always rounds up on a tie; the sign is
carried separately and is preserved by `quantize`). -/
def centsOf (a : Dec) : Nat :=
  if a.scale ≤ 2 then a.coeff * 10 ^ (2 - a.scale)
  else (a.coeff + 10 ^ (a.scale - 2) / 2) / 10 ^ (a.scale - 2)

/-- `format_amount` (`swift_messages.py` lines 15-17): quantize the amount to
two fractional digits with `ROUND_HALF_UP`, then render it with
`format(_, 'f')`: an optional minus sign, the integral digits, a plain `'.'`
and exactly the two fractional digits.  `format_decimal`
(`swift_alliance_streamlit.py` lines 219-220) is the identical computation
without the (unused) currency parameter. -/
def format_amount (amount : Dec) (currency : String) : String :=
  ⟨(if amount.sign then ['-'] else []) ++
    natDigits (centsOf amount / 100) ++ '.' :: pad2 (centsOf amount % 100)⟩

/-- Unsigned part of a plain decimal literal: digits with at most one point.
Returns the coefficient and the scale. -/
def parseUns (cs : List Char) : Option (Nat × Nat) :=
  let ip := cs.takeWhile (fun c => c != '.')
  match cs.dropWhile (fun c => c != '.') with
  | [] =>
    if ip ≠ [] ∧ ip.all Char.isDigit then some (digitsToNat ip, 0) else none
  | _ :: fr =>
    if (ip.all Char.isDigit ∧ fr.all Char.isDigit) ∧ (ip ≠ [] ∨ fr ≠ []) then
      some (digitsToNat ip * 10 ^ fr.length + digitsToNat fr, fr.length)
    else none

/-- Sign handling of a decimal literal. -/
def parseSigned (cs : List Char) : Option Dec :=
  match cs with
  | [] => none
  | c :: rest =>
    if c = '-' then (parseUns rest).map fun nk => ⟨true, nk.1, nk.2⟩
    else if c = '+' then (parseUns rest).map fun nk => ⟨false, nk.1, nk.2⟩
    else (parseUns cs).map fun nk => ⟨false, nk.1, nk.2⟩

/-- A plain finite decimal literal: an optional sign followed by digits
holding at most one decimal point.  On every success it agrees with the
Python `Decimal` string constructor (`Decimal(payment['amount'])`,
`swift_messages.py` lines 34, 76, 83, 92; `Decimal(amount_text.strip())`,
`swift_alliance_streamlit.py` line 581); the constructor's full grammar —
surrounding whitespace, underscores, exponent forms and the
`NaN`/`sNaN`/`Infinity` specials — is modelled by `parsePyDec` below.  This
restricted form is used only where that restriction is sound: re-parsing
formatter output (always such a literal) and as a parseability hypothesis,
every instance of which is also constructor-parseable with the same value. -/
def parseDecimal (s : String) : Option Dec := parseSigned s.data

/-- Python `str.strip()` on the ends of a string. -/
def pyStrip (s : String) : String :=
  ⟨((s.data.dropWhile Char.isWhitespace).reverse.dropWhile
      Char.isWhitespace).reverse⟩

/-- The canonical payment record (`payment` dict of `swift_messages.py`).
The amount is carried as an exact decimal; the raw-text entry points below
model the dict whose `amount` key still holds unparsed text.  The value date
is not carried here: its conversion to a two-digit-year `YYMMDD` string (with
a today fallback, `swift_messages.py` lines 47-50) consumes the clock, so the
converted string is injected as the `vd` parameter of the MT encoder. -/
structure Payment where
  ordering_account : String
  ordering_name : String
  beneficiary_account : String
  beneficiary_name : String
  amount : Dec
  currency : String
  remittance_info : String
  reference : String
  beneficiary_bic : Option String
deriving DecidableEq

/-- Sender bank static data (`SWIFT_SENDER_INFO_DEFAULT`-shaped dicts of
`swift_alliance_streamlit.py`; the app always builds all five keys, so the
`dict.get` defaults of the source never fire). -/
structure SenderInfo where
  bic : String
  bank_name : String
  bank_address : String
  account_name : String
  account_iban : String
deriving DecidableEq

/-- Python `remittance.replace("\n", " ")` (`swift_messages.py` line 55):
a single-character replacement is a character map. -/
def nlToSpace (s : String) : String :=
  ⟨s.data.map (fun c => if c = '\n' then ' ' else c)⟩

/-- Python `"\n".join(lines)`: separator between the lines, none trailing. -/
def joinLines : List String → String
  | [] => ""
  | [x] => x
  | x :: y :: xs => x ++ "\n" ++ joinLines (y :: xs)

/-- `s` ends with `tail`, on the character lists. -/
def strEndsWith (s tail : String) : Bool := tail.data.isSuffixOf s.data

/-- `s` starts with `head`, on the character lists. -/
def strStartsWith (s head : String) : Bool := head.data.isPrefixOf s.data

/-- The successive `lines.append(...)` calls of `generate_mt103`
(`swift_messages.py` lines 40-58): envelope headers, block 4 with the
default MT103 tags, the `:70:` line only when the remittance text is
non-empty (Python truthiness of the string). -/
def mt103Lines (p : Payment) (vd : String) : List String :=
  let lines : List String := []
  let lines := lines ++ ["\x7b1:F01SWIFTSIMULATORXXXX0000000000\x7d"]
  let lines := lines ++ ["\x7b2:O1031200SWIFTSIMULATORXXXX0000000000\x7d"]
  let lines := lines ++ ["\x7b4:"]
  let lines := lines ++ [":20:" ++ p.reference]
  let lines := lines ++ [":23B:CRED"]
  let lines := lines ++
    [":32A:" ++ vd ++ p.currency ++ format_amount p.amount p.currency]
  let lines := lines ++
    [":50K:" ++ p.ordering_name ++ " /" ++ p.ordering_account]
  let lines := lines ++
    [":59:" ++ p.beneficiary_name ++ " /" ++ p.beneficiary_account]
  let lines := if p.remittance_info ≠ "" then
    lines ++ [":70:" ++ nlToSpace p.remittance_info] else lines
  let lines := lines ++ [":71A:SHA"]
  lines ++ ["-\x7d"]

/-- `generate_mt103` (`swift_messages.py` lines 19-59) on a record whose
amount is already an exact decimal. -/
def generate_mt103 (p : Payment) (vd : String) : String :=
  joinLines (mt103Lines p vd)

/-- The MT103 round-trip scenario record of the specification. -/
def mtScenario : Payment :=
  ⟨"CH970020620625170160K", "ANDRO AG", "DE89370400440532013000",
    "ACME CORP", ⟨false, 15005, 1⟩, "USD", "", "REF001", none⟩

/-- An XML element as `xml.etree.ElementTree` holds it: tag, attribute list,
optional text, child elements.  The encoders are modelled as producing the
element tree they build; the final serialization (`ET.tostring` followed by
minidom pretty-printing) is an injective rendering of this tree and is not
embedded. -/
inductive XNode where
  | el : String → List (String × String) → Option String → List XNode → XNode

mutual

/-- Texts of all elements carrying the given tag, in document order. -/
def collectTexts (name : String) : XNode → List String
  | .el tag _ txt children =>
    (if tag = name then [txt.getD ""] else []) ++ collectTextsList name children

def collectTextsList (name : String) : List XNode → List String
  | [] => []
  | x :: xs => collectTexts name x ++ collectTextsList name xs

end

mutual

/-- Number of elements carrying the given tag. -/
def countTag (name : String) : XNode → Nat
  | .el tag _ _ children => (if tag = name then 1 else 0) + countTagList name children

def countTagList (name : String) : List XNode → Nat
  | [] => 0
  | x :: xs => countTag name x + countTagList name xs

end

/-- `generate_pain001` (`swift_messages.py` lines 61-125) as the element tree
it constructs.  The `reference` key is always present in the records this
application builds, so the `uuid4()` defaults at `MsgId`/`EndToEndId` never
fire; `now` injects `datetime.utcnow().replace(microsecond=0).isoformat()`
and `ts` injects `utcnow().strftime("%Y%m%d%H%M%S")`.  The creditor-agent
block follows Python truthiness of `payment.get('beneficiary_bic')` (absent
or empty string both skip it), and `RmtInf` follows the truthiness of the
remittance text.  `generate_pain001_xml` (`swift_alliance_streamlit.py`
lines 222-257) builds the identical tree except that it never emits a
creditor-agent block: it is this tree at `beneficiary_bic = none`. -/
def generate_pain001 (p : Payment) (now ts : String) : XNode :=
  .el "CstmrCdtTrfInitn"
    [("xmlns", "urn:iso:std:iso:20022:tech:xsd:pain.001.001.03")] none
    [.el "GrpHdr" [] none
      [.el "MsgId" [] (some p.reference) [],
       .el "CreDtTm" [] (some (now ++ "Z")) [],
       .el "NbOfTxs" [] (some "1") [],
       .el "CtrlSum" [] (some (format_amount p.amount p.currency)) []],
     .el "PmtInf" [] none
      [.el "PmtInfId" [] (some ("PMT-" ++ ts)) [],
       .el "PmtMtd" [] (some "TRF") [],
       .el "NbOfTxs" [] (some "1") [],
       .el "CtrlSum" [] (some (format_amount p.amount p.currency)) [],
       .el "CdtTrfTxInf" [] none
        ([.el "PmtId" [] none [.el "EndToEndId" [] (some p.reference) []],
          .el "Amt" [] none
           [.el "InstdAmt" [("Ccy", p.currency)]
             (some (format_amount p.amount p.currency)) []]] ++
         (match p.beneficiary_bic with
          | some b =>
            if b = "" then []
            else [.el "CdtrAgt" [] none
              [.el "FinInstnId" [] none [.el "BIC" [] (some b) []]]]
          | none => []) ++
         [.el "Cdtr" [] none [.el "Nm" [] (some p.beneficiary_name) []],
          .el "CdtrAcct" [] none
           [.el "Id" [] none [.el "IBAN" [] (some p.beneficiary_account) []]],
          .el "Dbtr" [] none [.el "Nm" [] (some p.ordering_name) []],
          .el "DbtrAcct" [] none
           [.el "Id" [] none [.el "IBAN" [] (some p.ordering_account) []]]] ++
         (if p.remittance_info ≠ "" then
           [.el "RmtInf" [] none
             [.el "Ustrd" [] (some p.remittance_info) []]]
          else []))]]

/-- `generate_pain001` on a record whose `amount` entry is raw text, under
the plain-literal parse (sound on its successes; the full constructor and
quantize pipeline, specials included, is `generate_pain001_py` below). -/
def generate_pain001_raw (amountText : String) (p : Payment) (now ts : String) :
    Option XNode :=
  (parseDecimal amountText).map fun a =>
    generate_pain001 { p with amount := a } now ts

/-- Python `msg_type.replace("MT", "")`: drop every occurrence of `MT`. -/
def replaceMTAux : List Char → List Char
  | 'M' :: 'T' :: rest => replaceMTAux rest
  | c :: rest => c :: replaceMTAux rest
  | [] => []

/-- `str.replace("MT", "")` on a string, as the MT199/MT799 compose branch
applies it to the selector (`swift_alliance_streamlit.py` line 604). -/
def replaceMT (s : String) : String := ⟨replaceMTAux s.data⟩

/-- The line list of `build_mt_message` (`swift_alliance_streamlit.py` lines
201-216): envelope headers from the sender BIC, `:20:` with the caller
reference (or, when the reference is empty — Python `reference or ...` — the
generated `msg_type[:3]` plus a timestamp, injected as `ts`), one line per
entry of the tag map in insertion order, then the fixed `:86:`
sender-details trailer.  The sender dict always carries all five keys, so
the `'UNKNOWN'`/`None` defaults of `dict.get` never fire. -/
def buildMtLines (msgType : String) (fields : List (String × String))
    (sender : SenderInfo) (reference ts : String) : List String :=
  let ref := if reference = "" then
    (⟨msgType.data.take 3⟩ : String) ++ ts else reference
  ["\x7b1:F01" ++ sender.bic ++ "XXXX0000000000\x7d",
   "\x7b2:O" ++ msgType ++ "1200" ++ sender.bic ++ "XXXX0000000000\x7d",
   "\x7b4:",
   ":20:" ++ ref] ++
  fields.map (fun kv => kv.1 ++ kv.2) ++
  [":86:Sender Details",
   " /BANK/" ++ sender.bank_name,
   " /ADDR/" ++ sender.bank_address,
   " /ACCTNAME/" ++ sender.account_name,
   " /ACCTIBAN/" ++ sender.account_iban,
   "-\x7d"]

/-- `build_mt_message` (`swift_alliance_streamlit.py` lines 201-216). -/
def build_mt_message (msgType : String) (fields : List (String × String))
    (sender : SenderInfo) (reference ts : String) : String :=
  joinLines (buildMtLines msgType fields sender reference ts)

/-- One `d[k] = v` step of Python `dict.update`: overwrite the existing
entry in place (keeping its position) when the key exists, else append. -/
def updateOne : List (String × String) → String × String →
    List (String × String)
  | [], kv => [kv]
  | p :: ps, kv =>
    if p.1 = kv.1 then (p.1, kv.2) :: ps else p :: updateOne ps kv

/-- Python `base.update(ov)` on insertion-ordered dicts held as association
lists. -/
def dictUpdate (base ov : List (String × String)) :
    List (String × String) :=
  ov.foldl updateOne base

/-- The MT103 `fields_map` literal of the compose handler
(`swift_alliance_streamlit.py` lines 594-599), before `update(mt_fields)`;
`todayYMD` injects `date.today().strftime('%y%m%d')`.  Note this branch
always adds a `:70:` entry (even for empty remittance) and none of
`:23B:`/`:71A:`, unlike `generate_mt103` of `swift_messages.py`. -/
def mt103DefaultFields (todayYMD : String) (amount : Dec)
    (currency ordering_name ordering_account beneficiary_name
      beneficiary_account remittance : String) :
    List (String × String) :=
  [(":32A:", todayYMD ++ currency ++ format_amount amount currency),
   (":50K:", ordering_name ++ " /" ++ ordering_account),
   (":59:", beneficiary_name ++ " /" ++ beneficiary_account),
   (":70:", remittance)]

/-- The default free-text tag of each non-MT103 compose branch
(`swift_alliance_streamlit.py` lines 602-610): `:79:` for MT199 and MT799,
`:77B:` for MT700, `:77U:` for MT760. -/
def defaultFreeTag (msgType : String) : String :=
  if msgType = "MT700" then ":77B:"
  else if msgType = "MT760" then ":77U:"
  else ":79:"

/-- Result of the compose dispatch: MT text or a pain.001 document tree. -/
inductive MessageBody where
  | mt : String → MessageBody
  | xml : XNode → MessageBody

/-- The compose handler (`swift_alliance_streamlit.py` lines 577-627):
`Decimal(amount_text.strip())` guards everything (failure shows an error and
stops, modelled as `none`); the `MT103` branch merges the caller tag map
into the default field map with `dict.update`; the `MT199`/`MT799`/`MT700`/
`MT760` branches use the caller tag map when it is non-empty (Python
`mt_fields or {...}`) and the type-specific free-text default otherwise;
every other selector falls through to the `else` branch, which builds a
payment dict and calls the pain.001 XML encoder.  `todayYMD` injects
today's date, `ts` the reference-fallback timestamp of `build_mt_message`,
and `now`/`pmtTs` the timestamps of the XML encoder. -/
def composeMessage (msgType amountText currency ordering_name
    ordering_account beneficiary_name beneficiary_account remittance
    reference : String) (mtFields : List (String × String))
    (sender : SenderInfo) (todayYMD ts now pmtTs : String) :
    Option MessageBody :=
  match parseDecimal (pyStrip amountText) with
  | none => none
  | some amount =>
    if msgType = "MT103" then
      some (.mt (build_mt_message "103"
        (dictUpdate (mt103DefaultFields todayYMD amount currency
          ordering_name ordering_account beneficiary_name
          beneficiary_account remittance) mtFields) sender reference ts))
    else if msgType = "MT199" ∨ msgType = "MT799" then
      some (.mt (build_mt_message (replaceMT msgType)
        (if mtFields.isEmpty then [(":79:", remittance)] else mtFields)
        sender reference ts))
    else if msgType = "MT700" then
      some (.mt (build_mt_message "700"
        (if mtFields.isEmpty then [(":77B:", remittance)] else mtFields)
        sender reference ts))
    else if msgType = "MT760" then
      some (.mt (build_mt_message "760"
        (if mtFields.isEmpty then [(":77U:", remittance)] else mtFields)
        sender reference ts))
    else
      some (.xml (generate_pain001
        ⟨ordering_account, ordering_name, beneficiary_account,
          beneficiary_name, amount, currency, remittance, reference, none⟩
        now pmtTs))

/-- `build_formal_output` (`swift_alliance_streamlit.py` lines 319-342); the
`Reference:` line consumes the clock, injected here as `refTs`. -/
def build_formal_output (message_type message_body : String)
    (sender : SenderInfo) (start_ts end_ts account_number refTs : String) :
    String :=
  joinLines
    ["INSTANT TYPE AND TRANSMISSION: INSTANT",
     "",
     "MESSAGE HEADER",
     "Message Type: " ++ message_type,
     "Reference: " ++ refTs,
     "Sender BIC: " ++ sender.bic,
     "Sender Bank: " ++ sender.bank_name,
     "Sender Address: " ++ sender.bank_address,
     "Account Name: " ++ sender.account_name,
     "Account IBAN: " ++ sender.account_iban,
     "Selected Account (from system): " ++ account_number,
     "",
     "MESSAGE TEXT",
     message_body,
     "",
     "MESSAGE HAS BEEN TRANSMITTED SUCCESSFULLY",
     "CONFIRMED & RECEIVED",
     "",
     "Start Time: " ++ start_ts,
     "End Time:   " ++ end_ts]

/-- A concrete sender record for witnesses. -/
def senderW : SenderInfo :=
  ⟨"UBSWCHZH80A", "UBS SWITZERLAND AG", "PARADEPLATZ 6", "ANDRO AG",
    "CH970020620625170160K"⟩

/-- A Python decimal value as the `Decimal` constructor can return it: a
finite value (sign, coefficient, exponent — `Decimal('1.5e3')` carries
coefficient 15 and exponent 2), a quiet NaN with its integer-normalized
diagnostic payload (`Decimal('NaN007')` carries 7, a zero or absent payload
both print as plain `NaN`), a signaling NaN, or an infinity. -/
inductive PyDec where
  | fin : Bool → Nat → Int → PyDec
  | qnan : Bool → Nat → PyDec
  | snan : Bool → Nat → PyDec
  | infty : Bool → PyDec
deriving DecidableEq

/-- ASCII whitespace, as the `Decimal` constructor strips it around numeric
strings.  (The constructor also strips non-ASCII Unicode spaces; those are
outside this embedding.) -/
def pyIsSpace (c : Char) : Bool :=
  c = ' ' ∨ c = '\t' ∨ c = '\n' ∨ c = '\r' ∨ c = '\x0b' ∨ c = '\x0c'

/-- ASCII lowercasing, for the case-insensitive special values and the
exponent indicator. -/
def lowerChar (c : Char) : Char :=
  if 'A' ≤ c ∧ c ≤ 'Z' then Char.ofNat (c.toNat + 32) else c

/-- The preprocessing of the `Decimal` constructor: leading and trailing
whitespace is stripped first, then underscores are removed throughout
(checked against CPython: `' 1.5'`, `'1_0'` and `'_1_'` parse, while
`'_ 1'` does not because the inner space survives the end-strip). -/
def pyDecPreprocess (s : String) : List Char :=
  (((s.data.dropWhile pyIsSpace).reverse.dropWhile pyIsSpace).reverse).filter
    (fun c => c != '_')

/-- Exponent part after the `e`/`E` indicator: an optional sign, then at
least one digit. -/
def parseExp (cs : List Char) : Option Int :=
  match cs with
  | '-' :: ds =>
    if ds ≠ [] ∧ ds.all Char.isDigit then some (-(digitsToNat ds : Int))
    else none
  | '+' :: ds =>
    if ds ≠ [] ∧ ds.all Char.isDigit then some ((digitsToNat ds : Int))
    else none
  | ds =>
    if ds ≠ [] ∧ ds.all Char.isDigit then some ((digitsToNat ds : Int))
    else none

/-- A finite numeric value, `digits [. digits] | . digits` with an optional
exponent part; yields the coefficient and the exponent. -/
def parseFinite (cs : List Char) : Option (Nat × Int) :=
  let mant := cs.takeWhile (fun c => lowerChar c != 'e')
  match parseUns mant, cs.dropWhile (fun c => lowerChar c != 'e') with
  | some nk, [] => some (nk.1, -(nk.2 : Int))
  | some nk, _ :: es => (parseExp es).map fun e => (nk.1, e - (nk.2 : Int))
  | none, _ => none

/-- The special values: `Infinity`/`Inf` exactly, or `NaN`/`sNaN` followed
by optional diagnostic digits, all case-insensitive; the diagnostic is
normalized through `int` (leading zeros dropped). -/
def parseSpecial (sgn : Bool) (cs : List Char) : Option PyDec :=
  let low := cs.map lowerChar
  if low = ['i', 'n', 'f'] ∨
      low = ['i', 'n', 'f', 'i', 'n', 'i', 't', 'y'] then
    some (.infty sgn)
  else if low.take 3 = ['n', 'a', 'n'] ∧ (low.drop 3).all Char.isDigit then
    some (.qnan sgn (digitsToNat (low.drop 3)))
  else if low.take 4 = ['s', 'n', 'a', 'n'] ∧
      (low.drop 4).all Char.isDigit then
    some (.snan sgn (digitsToNat (low.drop 4)))
  else none

/-- The full `Decimal` string-constructor grammar (Python library docs,
behavior checked against CPython): after whitespace stripping and underscore
removal, an optional sign followed by either a finite decimal-part with an
optional exponent, an infinity, or a (signaling) NaN with optional
diagnostic digits; everything else raises `InvalidOperation`. -/
def parsePyDec (s : String) : Option PyDec :=
  match pyDecPreprocess s with
  | [] => none
  | '-' :: rest =>
    match parseFinite rest with
    | some ce => some (.fin true ce.1 ce.2)
    | none => parseSpecial true rest
  | '+' :: rest =>
    match parseFinite rest with
    | some ce => some (.fin false ce.1 ce.2)
    | none => parseSpecial false rest
  | cs =>
    match parseFinite cs with
    | some ce => some (.fin false ce.1 ce.2)
    | none => parseSpecial false cs

/-- Number of decimal digits of `n`. -/
def numDigits (n : Nat) : Nat := (natDigits n).length

/-- A finite constructor result as a `Dec`: a negative exponent is a scale,
a positive one is folded into the coefficient (equal value, and `quantize`
depends only on the value and the rounding mode). -/
def finToDec (sgn : Bool) (coeff : Nat) (e : Int) : Dec :=
  if e ≥ 0 then ⟨sgn, coeff * 10 ^ e.toNat, 0⟩
  else ⟨sgn, coeff, (-e).toNat⟩

/-- The `format(amount.quantize(Decimal('0.01'), ROUND_HALF_UP), 'f')`
pipeline of both encoders on an arbitrary `Decimal` value (behavior checked
against CPython): a finite value rounds to cents and renders — unless the
rounded coefficient exceeds the default 28-digit context precision, which
makes `quantize` raise `InvalidOperation`; a quiet NaN passes through
`quantize` unchanged and renders as `NaN` with its sign and its nonzero
payload digits; a signaling NaN or an infinity makes `quantize` raise
`InvalidOperation`. -/
def formatAmountPy (a : PyDec) (currency : String) : Option String :=
  match a with
  | .fin sgn c e =>
    let d := finToDec sgn c e
    if numDigits (centsOf d) ≤ 28 then some (format_amount d currency)
    else none
  | .qnan sgn payload =>
    some ((if sgn then "-" else "") ++ "NaN" ++
      (if payload = 0 then "" else (⟨natDigits payload⟩ : String)))
  | .snan _ _ => none
  | .infty _ => none

/-- `mt103Lines` with the already-formatted amount text in the `:32A:`
line; `mt103LinesAmt (format_amount p.amount p.currency) p vd` is
definitionally `mt103Lines p vd` (proved below). -/
def mt103LinesAmt (amt : String) (p : Payment) (vd : String) : List String :=
  let lines : List String := []
  let lines := lines ++ ["\x7b1:F01SWIFTSIMULATORXXXX0000000000\x7d"]
  let lines := lines ++ ["\x7b2:O1031200SWIFTSIMULATORXXXX0000000000\x7d"]
  let lines := lines ++ ["\x7b4:"]
  let lines := lines ++ [":20:" ++ p.reference]
  let lines := lines ++ [":23B:CRED"]
  let lines := lines ++ [":32A:" ++ vd ++ p.currency ++ amt]
  let lines := lines ++
    [":50K:" ++ p.ordering_name ++ " /" ++ p.ordering_account]
  let lines := lines ++
    [":59:" ++ p.beneficiary_name ++ " /" ++ p.beneficiary_account]
  let lines := if p.remittance_info ≠ "" then
    lines ++ [":70:" ++ nlToSpace p.remittance_info] else lines
  let lines := lines ++ [":71A:SHA"]
  lines ++ ["-\x7d"]

/-- The pain.001 element tree with the already-formatted amount text in the
`CtrlSum` and `InstdAmt` elements; at `format_amount p.amount p.currency`
it is definitionally `generate_pain001` (proved below). -/
def generate_pain001Amt (amt : String) (p : Payment) (now ts : String) :
    XNode :=
  .el "CstmrCdtTrfInitn"
    [("xmlns", "urn:iso:std:iso:20022:tech:xsd:pain.001.001.03")] none
    [.el "GrpHdr" [] none
      [.el "MsgId" [] (some p.reference) [],
       .el "CreDtTm" [] (some (now ++ "Z")) [],
       .el "NbOfTxs" [] (some "1") [],
       .el "CtrlSum" [] (some amt) []],
     .el "PmtInf" [] none
      [.el "PmtInfId" [] (some ("PMT-" ++ ts)) [],
       .el "PmtMtd" [] (some "TRF") [],
       .el "NbOfTxs" [] (some "1") [],
       .el "CtrlSum" [] (some amt) [],
       .el "CdtTrfTxInf" [] none
        ([.el "PmtId" [] none [.el "EndToEndId" [] (some p.reference) []],
          .el "Amt" [] none
           [.el "InstdAmt" [("Ccy", p.currency)] (some amt) []]] ++
         (match p.beneficiary_bic with
          | some b =>
            if b = "" then []
            else [.el "CdtrAgt" [] none
              [.el "FinInstnId" [] none [.el "BIC" [] (some b) []]]]
          | none => []) ++
         [.el "Cdtr" [] none [.el "Nm" [] (some p.beneficiary_name) []],
          .el "CdtrAcct" [] none
           [.el "Id" [] none [.el "IBAN" [] (some p.beneficiary_account) []]],
          .el "Dbtr" [] none [.el "Nm" [] (some p.ordering_name) []],
          .el "DbtrAcct" [] none
           [.el "Id" [] none [.el "IBAN" [] (some p.ordering_account) []]]] ++
         (if p.remittance_info ≠ "" then
           [.el "RmtInf" [] none
             [.el "Ustrd" [] (some p.remittance_info) []]]
          else []))]]

/-- `generate_mt103` on raw amount text under the full constructor model:
`Decimal(payment['amount'])` (`swift_messages.py` line 34) raises on
rejected text, and the `quantize` inside `format_amount` (line 51 via line
17) raises on a signaling NaN, an infinity or a precision overflow — either
way no output; every other value, a quiet NaN included, yields the complete
message. -/
def generate_mt103_py (amountText : String) (p : Payment) (vd : String) :
    Option String :=
  match parsePyDec amountText with
  | none => none
  | some a =>
    match formatAmountPy a p.currency with
    | none => none
    | some s => some (joinLines (mt103LinesAmt s p vd))

/-- `generate_pain001` on raw amount text under the full constructor model:
`Decimal(payment['amount'])` (line 76) raises on rejected text and the
`quantize` inside `format_amount` raises on a signaling NaN, an infinity or
a precision overflow, all before any XML string is serialized; every other
value, a quiet NaN included, yields the complete document. -/
def generate_pain001_py (amountText : String) (p : Payment) (now ts : String) :
    Option XNode :=
  match parsePyDec amountText with
  | none => none
  | some a =>
    match formatAmountPy a p.currency with
    | none => none
    | some s => some (generate_pain001Amt s p now ts)

theorem str_ext (a b : String) (h : a.data = b.data) : a = b := by
  cases a; cases b; exact congrArg String.mk h

theorem str_data_append (s t : String) : (s ++ t).data = s.data ++ t.data := rfl

theorem digitChar_isDigit : ∀ k, k < 10 → (digitChar k).isDigit = true := by
  decide

theorem digitVal_digitChar : ∀ k, k < 10 → digitVal (digitChar k) = k := by
  decide

theorem isDigit_ne_dot (c : Char) (h : c.isDigit = true) : c ≠ '.' := by
  intro e; subst e; exact absurd h (by decide)

theorem isDigit_ne_minus (c : Char) (h : c.isDigit = true) : c ≠ '-' := by
  intro e; subst e; exact absurd h (by decide)

theorem isDigit_ne_plus (c : Char) (h : c.isDigit = true) : c ≠ '+' := by
  intro e; subst e; exact absurd h (by decide)

theorem natDigitsAux_all_digit :
    ∀ fuel n, n < fuel → ∀ c ∈ natDigitsAux fuel n, c.isDigit = true := by
  intro fuel
  induction fuel with
  | zero => intro n h; omega
  | succ fuel ih =>
    intro n _ c hc
    by_cases h10 : n < 10
    · simp [natDigitsAux, h10] at hc
      subst hc
      exact digitChar_isDigit n h10
    · simp [natDigitsAux, h10] at hc
      rcases hc with hc | hc
      · have hlt : n / 10 < fuel := by
          have h1 : n / 10 < n := Nat.div_lt_self (by omega) (by omega)
          omega
        exact ih (n / 10) hlt c hc
      · subst hc
        exact digitChar_isDigit (n % 10) (Nat.mod_lt n (by omega))

theorem natDigitsAux_ne_nil :
    ∀ fuel n, n < fuel → natDigitsAux fuel n ≠ [] := by
  intro fuel
  induction fuel with
  | zero => intro n h; omega
  | succ fuel _ =>
    intro n _
    by_cases h10 : n < 10 <;> simp [natDigitsAux, h10]

theorem digitsToNat_natDigitsAux :
    ∀ fuel n, n < fuel → digitsToNat (natDigitsAux fuel n) = n := by
  intro fuel
  induction fuel with
  | zero => intro n h; omega
  | succ fuel ih =>
    intro n hn
    by_cases h10 : n < 10
    · simp [natDigitsAux, h10, digitsToNat, List.foldl,
        digitVal_digitChar n h10]
    · have hlt : n / 10 < fuel := by
        have h1 : n / 10 < n := Nat.div_lt_self (by omega) (by omega)
        omega
      have hrec := ih (n / 10) hlt
      simp only [natDigitsAux, h10, if_false, digitsToNat] at hrec ⊢
      rw [List.foldl_append]
      simp [List.foldl, hrec, digitVal_digitChar (n % 10) (Nat.mod_lt n (by omega))]
      omega

theorem natDigits_all_digit (n : Nat) :
    ∀ c ∈ natDigits n, c.isDigit = true :=
  natDigitsAux_all_digit (n + 1) n (Nat.lt_succ_self n)

theorem natDigits_ne_nil (n : Nat) : natDigits n ≠ [] :=
  natDigitsAux_ne_nil (n + 1) n (Nat.lt_succ_self n)

theorem digitsToNat_natDigits (n : Nat) : digitsToNat (natDigits n) = n :=
  digitsToNat_natDigitsAux (n + 1) n (Nat.lt_succ_self n)

theorem pad2_all_digit (r : Nat) (h : r < 100) :
    ∀ c ∈ pad2 r, c.isDigit = true := by
  intro c hc
  simp [pad2] at hc
  rcases hc with hc | hc <;> subst hc
  · exact digitChar_isDigit (r / 10) (by omega)
  · exact digitChar_isDigit (r % 10) (Nat.mod_lt r (by omega))

theorem digitsToNat_pad2 (r : Nat) (h : r < 100) :
    digitsToNat (pad2 r) = r := by
  have h1 : r / 10 < 10 := by omega
  simp [pad2, digitsToNat, List.foldl, digitVal_digitChar (r / 10) h1,
    digitVal_digitChar (r % 10) (Nat.mod_lt r (by omega))]
  omega

theorem takeWhile_append_all (p : Char → Bool) :
    ∀ (xs ys : List Char), (∀ x ∈ xs, p x = true) →
      (xs ++ ys).takeWhile p = xs ++ ys.takeWhile p := by
  intro xs ys h
  induction xs with
  | nil => simp
  | cons x xs ih =>
    have hx : p x = true := h x (by simp)
    simp [List.takeWhile_cons, hx]
    exact ih fun y hy => h y (by simp [hy])

theorem dropWhile_append_all (p : Char → Bool) :
    ∀ (xs ys : List Char), (∀ x ∈ xs, p x = true) →
      (xs ++ ys).dropWhile p = ys.dropWhile p := by
  intro xs ys h
  induction xs with
  | nil => simp
  | cons x xs ih =>
    have hx : p x = true := h x (by simp)
    simp [List.dropWhile_cons, hx]
    exact ih fun y hy => h y (by simp [hy])

theorem parseUns_digits_dot (ds fr : List Char)
    (hds : ∀ c ∈ ds, c.isDigit = true) (hfr : ∀ c ∈ fr, c.isDigit = true)
    (hne : ds ≠ [] ∨ fr ≠ []) :
    parseUns (ds ++ '.' :: fr) =
      some (digitsToNat ds * 10 ^ fr.length + digitsToNat fr, fr.length) := by
  have hp : ∀ x ∈ ds, (x != '.') = true := by
    intro x hx
    simpa [bne_iff_ne] using isDigit_ne_dot x (hds x hx)
  have ht : (ds ++ '.' :: fr).takeWhile (fun c => c != '.') = ds := by
    rw [takeWhile_append_all _ ds ('.' :: fr) hp]
    simp [List.takeWhile_cons]
  have hd : (ds ++ '.' :: fr).dropWhile (fun c => c != '.') = '.' :: fr := by
    rw [dropWhile_append_all _ ds ('.' :: fr) hp]
    simp [List.dropWhile_cons]
  simp only [parseUns, ht, hd]
  have hda : ds.all Char.isDigit = true := List.all_eq_true.mpr hds
  have hfa : fr.all Char.isDigit = true := List.all_eq_true.mpr hfr
  simp [hda, hfa, hne]

theorem pad2_length (r : Nat) : (pad2 r).length = 2 := rfl

theorem parseSigned_format (a : Dec) :
    parseSigned ((if a.sign then ['-'] else []) ++
        natDigits (centsOf a / 100) ++ '.' :: pad2 (centsOf a % 100)) =
      some ⟨a.sign, centsOf a, 2⟩ := by
  have hmod : centsOf a % 100 < 100 := Nat.mod_lt _ (by omega)
  have huns : parseUns (natDigits (centsOf a / 100) ++ '.' ::
      pad2 (centsOf a % 100)) = some (centsOf a, 2) := by
    rw [parseUns_digits_dot _ _ (natDigits_all_digit _)
      (pad2_all_digit _ hmod) (Or.inl (natDigits_ne_nil _))]
    rw [pad2_length, digitsToNat_natDigits, digitsToNat_pad2 _ hmod]
    have hcq : centsOf a / 100 * 10 ^ 2 + centsOf a % 100 = centsOf a := by
      omega
    rw [hcq]
  rcases a with ⟨sign, co, sc⟩
  cases sign
  · obtain ⟨c, cs, hcc⟩ :
        ∃ c cs, natDigits (centsOf ⟨false, co, sc⟩ / 100) = c :: cs := by
      cases h : natDigits (centsOf ⟨false, co, sc⟩ / 100) with
      | nil => exact absurd h (natDigits_ne_nil _)
      | cons c cs => exact ⟨c, cs, rfl⟩
    have hcd : c.isDigit = true :=
      natDigits_all_digit (centsOf ⟨false, co, sc⟩ / 100) c
        (by rw [hcc]; exact List.mem_cons_self c cs)
    have h1 : c ≠ '-' := isDigit_ne_minus c hcd
    have h2 : c ≠ '+' := isDigit_ne_plus c hcd
    show parseSigned (natDigits (centsOf ⟨false, co, sc⟩ / 100) ++ '.' ::
      pad2 (centsOf ⟨false, co, sc⟩ % 100)) = _
    rw [hcc, List.cons_append]
    simp only [parseSigned, if_neg h1, if_neg h2]
    rw [← List.cons_append, ← hcc, huns]
    rfl
  · show parseSigned ('-' :: (natDigits (centsOf ⟨true, co, sc⟩ / 100) ++
      '.' :: pad2 (centsOf ⟨true, co, sc⟩ % 100))) = _
    simp only [parseSigned, if_pos rfl]
    rw [huns]
    rfl

/-- C1: the shared amount formatter emits a single plain decimal point,
exactly two fractional digits and digit characters only (no grouping or
locale separators, no scientific notation); the rendered string re-parses to
exactly the half-up-rounded cent value of the input, and the boundary
examples `1234.5 → "1234.50"`, `1234.565 → "1234.57"` and
`1234.005 → "1234.01"` show two-digit padding and half-up (not banker's)
rounding at the half boundary. -/
theorem format_amount_canonical (a : Dec) (ccy : String) :
    parseDecimal (format_amount a ccy) = some ⟨a.sign, centsOf a, 2⟩ ∧
    (∃ ds f1 f2, (∀ c ∈ ds, c.isDigit = true) ∧ ds ≠ [] ∧
      f1.isDigit = true ∧ f2.isDigit = true ∧
      (format_amount a ccy).data =
        (if a.sign then ['-'] else []) ++ ds ++ ['.', f1, f2]) ∧
    ((format_amount a ccy).data.count '.') = 1 ∧
    (∀ c ∈ (format_amount a ccy).data,
      c.isDigit = true ∨ c = '.' ∨ c = '-') ∧
    format_amount ⟨false, 12345, 1⟩ "USD" = "1234.50" ∧
    format_amount ⟨false, 1234565, 3⟩ "USD" = "1234.57" ∧
    format_amount ⟨false, 1234005, 3⟩ "USD" = "1234.01" := by
  have hmod : centsOf a % 100 < 100 := Nat.mod_lt _ (by omega)
  have hdata : (format_amount a ccy).data =
      (if a.sign then ['-'] else []) ++
        natDigits (centsOf a / 100) ++ '.' :: pad2 (centsOf a % 100) := rfl
  refine ⟨parseSigned_format a, ?_, ?_, ?_, by rfl, by rfl, by rfl⟩
  · refine ⟨natDigits (centsOf a / 100), digitChar (centsOf a % 100 / 10),
      digitChar (centsOf a % 100 % 10), natDigits_all_digit _,
      natDigits_ne_nil _, digitChar_isDigit _ (by omega),
      digitChar_isDigit _ (Nat.mod_lt _ (by omega)), ?_⟩
    simp [hdata, pad2]
  · rw [hdata]
    have h0 : List.count '.' (if a.sign then ['-'] else []) = 0 := by
      cases a.sign <;> simp
    have h1 : List.count '.' (natDigits (centsOf a / 100)) = 0 := by
      rw [List.count_eq_zero]
      intro hmem
      exact isDigit_ne_dot _ (natDigits_all_digit _ _ hmem) rfl
    have h2 : List.count '.' (pad2 (centsOf a % 100)) = 0 := by
      rw [List.count_eq_zero]
      intro hmem
      exact isDigit_ne_dot _ (pad2_all_digit _ hmod _ hmem) rfl
    simp [List.count_append, h0, h1, h2]
  · rw [hdata]
    intro c hc
    simp at hc
    rcases hc with hc | hc | hc | hc
    · cases hs : a.sign
      · simp [hs] at hc
      · simp [hs] at hc
        subst hc
        right; right; rfl
    · exact Or.inl (natDigits_all_digit _ _ hc)
    · right; left; exact hc
    · exact Or.inl (pad2_all_digit _ hmod _ hc)

/-- Witness for C1 at the concrete amount `1500.5`: the formatted string
re-parses to 150050 cents at scale 2. -/
theorem format_amount_canonical_witness :
    parseDecimal (format_amount ⟨false, 15005, 1⟩ "USD") =
      some ⟨false, 150050, 2⟩ :=
  (format_amount_canonical ⟨false, 15005, 1⟩ "USD").1

/-- C10: the currency argument never influences the formatted amount string,
so the MT and pain.001 renderings of one amount agree whatever currency text
accompanies them. -/
theorem format_amount_currency_independent (a : Dec) (c1 c2 : String) :
    format_amount a c1 = format_amount a c2 := rfl

/-- C3: MT103 encoding emits, after the `:20:` reference line, exactly the
default tags `:23B:CRED`, `:32A:<vd><CCY><amount>` (date digits immediately
followed by currency and formatted amount, no separators),
`:50K:<ordering name> /<ordering account>`,
`:59:<beneficiary name> /<beneficiary account>`, a `:70:` line only when the
remittance text is non-empty, and `:71A:SHA`; in the concrete scenario
(ANDRO AG, CH97... to ACME CORP, DE89..., 1500.5 USD, reference REF001) the
output contains the line `:20:REF001` and a `:32A:` line ending in
`USD1500.50` with no thousands separators. -/
theorem generate_mt103_structure (p : Payment) (vd : String) :
    mt103Lines p vd =
      ["\x7b1:F01SWIFTSIMULATORXXXX0000000000\x7d",
       "\x7b2:O1031200SWIFTSIMULATORXXXX0000000000\x7d",
       "\x7b4:",
       ":20:" ++ p.reference,
       ":23B:CRED",
       ":32A:" ++ vd ++ p.currency ++ format_amount p.amount p.currency,
       ":50K:" ++ p.ordering_name ++ " /" ++ p.ordering_account,
       ":59:" ++ p.beneficiary_name ++ " /" ++ p.beneficiary_account] ++
      (if p.remittance_info = "" then []
        else [":70:" ++ nlToSpace p.remittance_info]) ++
      [":71A:SHA", "-\x7d"] ∧
    generate_mt103 p vd = joinLines (mt103Lines p vd) ∧
    (":20:REF001") ∈ mt103Lines mtScenario "251012" ∧
    (":32A:251012USD1500.50") ∈ mt103Lines mtScenario "251012" ∧
    strEndsWith ":32A:251012USD1500.50" "USD1500.50" = true ∧
    ',' ∉ (":32A:251012USD1500.50").data := by
  refine ⟨?_, rfl, by decide, by decide, by decide, by decide⟩
  by_cases hr : p.remittance_info = "" <;> simp [mt103Lines, hr]

/-- C2: for every payment record whose amount parses as a decimal, the
pain.001 tree holds exactly two `CtrlSum` elements carrying one single
distinct value, that value equals the `InstdAmt` element's text, and both
equal the formatted amount of the record. -/
theorem pain001_ctrlsum_invariant (amountText : String) (a : Dec) (p : Payment)
    (now ts : String) (h : parseDecimal amountText = some a) :
    generate_pain001_raw amountText p now ts =
      some (generate_pain001 { p with amount := a } now ts) ∧
    collectTexts "CtrlSum" (generate_pain001 { p with amount := a } now ts) =
      [format_amount a p.currency, format_amount a p.currency] ∧
    (collectTexts "CtrlSum"
        (generate_pain001 { p with amount := a } now ts)).dedup =
      [format_amount a p.currency] ∧
    collectTexts "InstdAmt" (generate_pain001 { p with amount := a } now ts) =
      [format_amount a p.currency] := by
  obtain ⟨oa, onm, ba, bn, am, cur, rem, ref, bic⟩ := p
  have hc : collectTexts "CtrlSum"
      (generate_pain001 ⟨oa, onm, ba, bn, a, cur, rem, ref, bic⟩ now ts) =
      [format_amount a cur, format_amount a cur] := by
    rcases bic with _ | b
    · by_cases hr : rem = "" <;>
        simp [generate_pain001, collectTexts, collectTextsList, hr]
    · by_cases hb : b = "" <;> by_cases hr : rem = "" <;>
        simp [generate_pain001, collectTexts, collectTextsList, hr, hb]
  refine ⟨by simp [generate_pain001_raw, h], hc, ?_, ?_⟩
  · rw [hc]; simp
  · rcases bic with _ | b
    · by_cases hr : rem = "" <;>
        simp [generate_pain001, collectTexts, collectTextsList, hr]
    · by_cases hb : b = "" <;> by_cases hr : rem = "" <;>
        simp [generate_pain001, collectTexts, collectTextsList, hr, hb]

/-- Witness for C2 at the concrete amount text `"1500.5"`. -/
theorem pain001_ctrlsum_invariant_witness :
    collectTexts "CtrlSum"
        (generate_pain001
          { mtScenario with amount := ⟨false, 15005, 1⟩ } "N" "T") =
      [format_amount ⟨false, 15005, 1⟩ "USD",
       format_amount ⟨false, 15005, 1⟩ "USD"] :=
  (pain001_ctrlsum_invariant "1500.5" ⟨false, 15005, 1⟩ mtScenario "N" "T"
    (by decide)).2.1

/-- C8: both encoders are pure functions of the payment record and of the
injected reference/timestamp inputs, so two invocations on the same record
with the same injected values yield identical output — no hidden counters or
cross-call state exist in the embedding. -/
theorem encoders_deterministic (p q : Payment) (vd vd2 now now2 ts ts2 : String)
    (hp : p = q) (hvd : vd = vd2) (hnow : now = now2) (hts : ts = ts2) :
    generate_mt103 p vd = generate_mt103 q vd2 ∧
    generate_pain001 p now ts = generate_pain001 q now2 ts2 := by
  subst hp; subst hvd; subst hnow; subst hts
  exact ⟨rfl, rfl⟩

/-- Witness for C8 at the concrete scenario record. -/
theorem encoders_deterministic_witness :
    generate_mt103 mtScenario "251012" = generate_mt103 mtScenario "251012" ∧
    generate_pain001 mtScenario "N" "T" =
      generate_pain001 mtScenario "N" "T" :=
  encoders_deterministic mtScenario mtScenario "251012" "251012" "N" "N"
    "T" "T" rfl rfl rfl rfl

/-- C7: the `:70:` tag line appears in the MT103 output exactly when the
remittance text is non-empty; when it appears it carries the remittance with
every newline replaced by a space; `RmtInf` appears in the pain.001 tree
exactly when the remittance text is non-empty. -/
theorem remittance_conditional (p : Payment) (vd now ts : String) :
    ((mt103Lines p vd).countP (fun l => strStartsWith l ":70:") =
      if p.remittance_info = "" then 0 else 1) ∧
    (p.remittance_info ≠ "" →
      (":70:" ++ nlToSpace p.remittance_info) ∈ mt103Lines p vd ∧
      ∀ c ∈ (nlToSpace p.remittance_info).data, c ≠ '\n') ∧
    (countTag "RmtInf" (generate_pain001 p now ts) =
      if p.remittance_info = "" then 0 else 1) := by
  have e20 : ∀ r : String, strStartsWith (":20:" ++ r) ":70:" = false :=
    fun r => rfl
  have e32 : ∀ v c a : String,
      strStartsWith (":32A:" ++ v ++ c ++ a) ":70:" = false :=
    fun v c a => rfl
  have e50 : ∀ n a : String,
      strStartsWith (":50K:" ++ n ++ " /" ++ a) ":70:" = false :=
    fun n a => rfl
  have e59 : ∀ n a : String,
      strStartsWith (":59:" ++ n ++ " /" ++ a) ":70:" = false :=
    fun n a => rfl
  have e70 : ∀ r : String, strStartsWith (":70:" ++ r) ":70:" = true := by
    intro r
    show ([':', '7', '0', ':'].isPrefixOf
      (':' :: '7' :: '0' :: ':' :: r.data)) = true
    simp [List.isPrefixOf]
  refine ⟨?_, fun hr => ⟨?_, ?_⟩, ?_⟩
  · by_cases hr : p.remittance_info = "" <;>
      simp [mt103Lines, hr, List.countP_cons, e20, e32, e50, e59, e70,
        strStartsWith]
  · simp [mt103Lines, hr]
  · intro c hc
    simp [nlToSpace] at hc
    obtain ⟨x, _, hx⟩ := hc
    by_cases hxn : x = '\n'
    · rw [if_pos hxn] at hx
      subst hx
      decide
    · rw [if_neg hxn] at hx
      subst hx
      exact hxn
  · obtain ⟨oa, onm, ba, bn, am, cur, rem, ref, bic⟩ := p
    rcases bic with _ | b
    · by_cases hr : rem = "" <;>
        simp [generate_pain001, countTag, countTagList, hr]
    · by_cases hb : b = "" <;> by_cases hr : rem = "" <;>
        simp [generate_pain001, countTag, countTagList, hr, hb]

/-- Witness for C7 at a record with remittance text holding a newline. -/
theorem remittance_conditional_witness :
    (":70:" ++ nlToSpace "LINE1\nLINE2") ∈
      mt103Lines { mtScenario with remittance_info := "LINE1\nLINE2" }
        "251012" :=
  ((remittance_conditional
      { mtScenario with remittance_info := "LINE1\nLINE2" } "251012" "N"
      "T").2.1 (by decide)).1

theorem replaceMT_199 : replaceMT "MT199" = "199" := by decide

theorem replaceMT_700 : replaceMT "MT700" = "700" := by decide

theorem replaceMT_760 : replaceMT "MT760" = "760" := by decide

theorem replaceMT_799 : replaceMT "MT799" = "799" := by decide

theorem lookup_updateOne (acc : List (String × String))
    (kv : String × String) (k : String) :
    (updateOne acc kv).lookup k =
      if k = kv.1 then some kv.2 else acc.lookup k := by
  induction acc with
  | nil =>
    by_cases hk : k = kv.1
    · simp [updateOne, List.lookup, hk]
    · have hb : (k == kv.1) = false := by simp [hk]
      simp [updateOne, List.lookup, hk, hb]
  | cons p ps ih =>
    by_cases hp : p.1 = kv.1
    · by_cases hk : k = kv.1
      · have hb : (k == p.1) = true := by simp [hk, hp]
        simp [updateOne, hp, List.lookup, hk, hb]
      · have hkp : k ≠ p.1 := fun e => hk (e.trans hp)
        have hb : (k == p.1) = false := by simp [hkp]
        have hb2 : (k == kv.1) = false := by simp [hk]
        simp [updateOne, hp, List.lookup, hk, hb, hb2]
    · by_cases hk : k = p.1
      · have hkv : k ≠ kv.1 := fun e => hp (hk.symm.trans e)
        have hb : (k == p.1) = true := by simp [hk]
        simp [updateOne, hp, List.lookup, hb, hkv]
      · have hb : (k == p.1) = false := by simp [hk]
        simp [updateOne, hp, List.lookup, hb, ih]

theorem lookup_dictUpdate (ov base : List (String × String)) (k : String) :
    (dictUpdate base ov).lookup k =
      match (ov.reverse).lookup k with
      | some v => some v
      | none => base.lookup k := by
  induction ov using List.reverseRecOn generalizing base with
  | nil => simp [dictUpdate]
  | append_singleton xs x ih =>
    have hfold : dictUpdate base (xs ++ [x]) =
        updateOne (dictUpdate base xs) x := by
      simp [dictUpdate, List.foldl_append]
    rw [hfold, lookup_updateOne, List.reverse_append]
    obtain ⟨xk, xv⟩ := x
    by_cases hk : k = xk
    · simp [List.lookup, hk]
    · simp only [List.reverse_cons, List.reverse_nil, List.nil_append,
        List.cons_append, List.lookup]
      have hbeq : (k == xk) = false := by
        simp [hk]
      simp [hk, hbeq, ih base]

/-- C6: for the non-MT103 types MT199, MT700, MT760, MT799 a non-empty
caller tag map fully replaces the type's default free-text tag — the field
lines of block 4 between `:20:` and the `:86:` trailer are exactly the
override lines, with no default tag inserted — while an empty map yields the
single default tag line carrying the remittance text; by contrast the MT103
branch merges the caller map into its defaults with `dict.update`, where a
caller entry wins on key collision and unmatched default keys survive. -/
theorem nonMT103_override_replace (msgType : String)
    (hm : msgType = "MT199" ∨ msgType = "MT700" ∨ msgType = "MT760" ∨
      msgType = "MT799")
    (amountText : String) (a : Dec)
    (ha : parseDecimal (pyStrip amountText) = some a)
    (currency onm oac bnm bac rem ref : String)
    (mtFields : List (String × String)) (sender : SenderInfo)
    (todayYMD ts now pmtTs : String) :
    composeMessage msgType amountText currency onm oac bnm bac rem ref
        mtFields sender todayYMD ts now pmtTs =
      some (.mt (joinLines (
        ["\x7b1:F01" ++ sender.bic ++ "XXXX0000000000\x7d",
         "\x7b2:O" ++ replaceMT msgType ++ "1200" ++ sender.bic ++
           "XXXX0000000000\x7d",
         "\x7b4:",
         ":20:" ++ (if ref = "" then
           (⟨(replaceMT msgType).data.take 3⟩ : String) ++ ts else ref)] ++
        (if mtFields.isEmpty then [defaultFreeTag msgType ++ rem]
         else mtFields.map (fun kv => kv.1 ++ kv.2)) ++
        [":86:Sender Details",
         " /BANK/" ++ sender.bank_name,
         " /ADDR/" ++ sender.bank_address,
         " /ACCTNAME/" ++ sender.account_name,
         " /ACCTIBAN/" ++ sender.account_iban,
         "-\x7d"]))) ∧
    (∀ (base : List (String × String)) (k : String),
      (dictUpdate base mtFields).lookup k =
        match (mtFields.reverse).lookup k with
        | some v => some v
        | none => base.lookup k) := by
  refine ⟨?_, fun base k => lookup_dictUpdate mtFields base k⟩
  rcases hm with hm | hm | hm | hm
  · subst hm
    simp only [composeMessage, ha]
    by_cases hf : mtFields.isEmpty <;>
      simp [build_mt_message, buildMtLines, hf, defaultFreeTag, replaceMT_199]
  · subst hm
    simp only [composeMessage, ha]
    by_cases hf : mtFields.isEmpty <;>
      simp [build_mt_message, buildMtLines, hf, defaultFreeTag, replaceMT_700]
  · subst hm
    simp only [composeMessage, ha]
    by_cases hf : mtFields.isEmpty <;>
      simp [build_mt_message, buildMtLines, hf, defaultFreeTag, replaceMT_760]
  · subst hm
    simp only [composeMessage, ha]
    by_cases hf : mtFields.isEmpty <;>
      simp [build_mt_message, buildMtLines, hf, defaultFreeTag, replaceMT_799]

/-- Witness for C6 at message type MT199 with the single override `:21:`. -/
theorem nonMT103_override_replace_witness :
    composeMessage "MT199" "10.5" "USD" "ON" "OA" "BN" "BA" "REM" "REF9"
        [(":21:", "REL123")] senderW "251012" "TS" "NOW" "PTS" =
      some (.mt (joinLines (
        ["\x7b1:F01" ++ senderW.bic ++ "XXXX0000000000\x7d",
         "\x7b2:O" ++ replaceMT "MT199" ++ "1200" ++ senderW.bic ++
           "XXXX0000000000\x7d",
         "\x7b4:",
         ":20:" ++ (if ("REF9" : String) = "" then
           (⟨(replaceMT "MT199").data.take 3⟩ : String) ++ "TS"
          else "REF9")] ++
        (if ([(":21:", "REL123")] : List (String × String)).isEmpty then
          [defaultFreeTag "MT199" ++ "REM"]
         else [(":21:", "REL123")].map (fun kv => kv.1 ++ kv.2)) ++
        [":86:Sender Details",
         " /BANK/" ++ senderW.bank_name,
         " /ADDR/" ++ senderW.bank_address,
         " /ACCTNAME/" ++ senderW.account_name,
         " /ACCTIBAN/" ++ senderW.account_iban,
         "-\x7d"]))) :=
  (nonMT103_override_replace "MT199" (Or.inl rfl) "10.5" ⟨false, 105, 1⟩
    (by decide) "USD" "ON" "OA" "BN" "BA" "REM" "REF9" [(":21:", "REL123")]
    senderW "251012" "TS" "NOW" "PTS").1

/-- Amended C4: the source raises no unsupported-message-type error at all.
`build_mt_message` succeeds on any selector, and a selector outside the five
MT templates falls through the compose dispatch to its `else` branch, which
produces a pain.001 XML document (the UI never offers such a selector: the
select box lists exactly the five `MT_TEMPLATES` keys). -/
theorem unsupported_type_no_failure (msgType : String)
    (hn : msgType ∉
      (["MT103", "MT199", "MT799", "MT700", "MT760"] : List String))
    (amountText : String) (a : Dec)
    (ha : parseDecimal (pyStrip amountText) = some a)
    (currency onm oac bnm bac rem ref : String)
    (mtFields : List (String × String)) (sender : SenderInfo)
    (todayYMD ts now pmtTs : String) :
    composeMessage msgType amountText currency onm oac bnm bac rem ref
        mtFields sender todayYMD ts now pmtTs =
      some (.xml (generate_pain001
        ⟨oac, onm, bac, bnm, a, currency, rem, ref, none⟩ now pmtTs)) := by
  have h103 : msgType ≠ "MT103" := by intro e; exact hn (by simp [e])
  have h199 : msgType ≠ "MT199" := by intro e; exact hn (by simp [e])
  have h799 : msgType ≠ "MT799" := by intro e; exact hn (by simp [e])
  have h700 : msgType ≠ "MT700" := by intro e; exact hn (by simp [e])
  have h760 : msgType ≠ "MT760" := by intro e; exact hn (by simp [e])
  simp [composeMessage, ha, h103, h199, h799, h700, h760]

/-- Counterexample to C4 as stated: the selector `MT999` with an empty
caller tag map and a parseable amount does not fail — the compose dispatch
returns a pain.001 document, not an `UnsupportedMessageType` error (no such
error exists anywhere in the source). -/
theorem unsupported_type_counterexample :
    composeMessage "MT999" "1.00" "USD" "ON" "OA" "BN" "BA" "" "REF1" []
        ⟨"BIC1", "BANK", "ADDR", "NAME", "IBAN"⟩ "251012" "TS" "NOW" "PTS" =
      some (.xml (generate_pain001
        ⟨"OA", "ON", "BA", "BN", ⟨false, 100, 2⟩, "USD", "", "REF1", none⟩
        "NOW" "PTS")) ∧
    composeMessage "MT999" "1.00" "USD" "ON" "OA" "BN" "BA" "" "REF1" []
        ⟨"BIC1", "BANK", "ADDR", "NAME", "IBAN"⟩ "251012" "TS" "NOW" "PTS" ≠
      none := by
  have he : composeMessage "MT999" "1.00" "USD" "ON" "OA" "BN" "BA" "" "REF1"
      [] ⟨"BIC1", "BANK", "ADDR", "NAME", "IBAN"⟩ "251012" "TS" "NOW" "PTS" =
      some (.xml (generate_pain001
        ⟨"OA", "ON", "BA", "BN", ⟨false, 100, 2⟩, "USD", "", "REF1", none⟩
        "NOW" "PTS")) := rfl
  exact ⟨he, by rw [he]; simp⟩

/-- Witness for the amended C4 at the concrete selector `MT950`. -/
theorem unsupported_type_no_failure_witness :
    composeMessage "MT950" "2.50" "EUR" "ON" "OA" "BN" "BA" "R" "REF2" []
        ⟨"BIC2", "B", "A", "N", "I"⟩ "251012" "TS" "NOW" "PTS" =
      some (.xml (generate_pain001
        ⟨"OA", "ON", "BA", "BN", ⟨false, 250, 2⟩, "EUR", "R", "REF2", none⟩
        "NOW" "PTS")) :=
  unsupported_type_no_failure "MT950" (by decide) "2.50" ⟨false, 250, 2⟩
    (by decide) "EUR" "ON" "OA" "BN" "BA" "R" "REF2" []
    ⟨"BIC2", "B", "A", "N", "I"⟩ "251012" "TS" "NOW" "PTS"

/-- C9: the formal output is exactly the newline-join, in fixed order, of
the fixed `INSTANT` banner, the header block (message type, the injected
freshly generated timestamp reference, sender BIC, bank name, bank address,
account name, account IBAN, the selected account label), the message body
verbatim, the fixed confirmation banner lines, and the labeled start and end
timestamps. -/
theorem formal_output_layout (mt body : String) (sender : SenderInfo)
    (start_ts end_ts acct refTs : String) :
    build_formal_output mt body sender start_ts end_ts acct refTs =
      "INSTANT TYPE AND TRANSMISSION: INSTANT\n\nMESSAGE HEADER\nMessage Type: "
        ++ mt ++ "\nReference: " ++ refTs ++ "\nSender BIC: " ++ sender.bic
        ++ "\nSender Bank: " ++ sender.bank_name ++ "\nSender Address: "
        ++ sender.bank_address ++ "\nAccount Name: " ++ sender.account_name
        ++ "\nAccount IBAN: " ++ sender.account_iban
        ++ "\nSelected Account (from system): " ++ acct
        ++ "\n\nMESSAGE TEXT\n" ++ body
        ++ "\n\nMESSAGE HAS BEEN TRANSMITTED SUCCESSFULLY\nCONFIRMED & RECEIVED\n\nStart Time: "
        ++ start_ts ++ "\nEnd Time:   " ++ end_ts := by
  apply str_ext
  simp [build_formal_output, joinLines, str_data_append]

theorem mt103LinesAmt_eq_mt103Lines (p : Payment) (vd : String) :
    mt103LinesAmt (format_amount p.amount p.currency) p vd =
      mt103Lines p vd := rfl

theorem pain001Amt_eq_pain001 (p : Payment) (now ts : String) :
    generate_pain001Amt (format_amount p.amount p.currency) p now ts =
      generate_pain001 p now ts := rfl

/-- C5 fails on the code at the amount text `NaN`: `Decimal('NaN')` parses,
`quantize` propagates the quiet NaN without raising, and `format(_, 'f')`
renders `NaN`, so the MT encoder returns a complete message whose `:32A:`
line ends in `USDNaN` and the XML encoder returns a complete document whose
`CtrlSum` and `InstdAmt` texts are `NaN` — instead of failing with no
output as the claim (and the spec's `InvalidAmount` contract for inputs
that are not finite decimals) requires.  Text the constructor rejects, such
as `abc`, does fail with no output. -/
theorem nan_amount_emits_message :
    generate_mt103_py "NaN" mtScenario "251012" =
      some (joinLines (mt103LinesAmt "NaN" mtScenario "251012")) ∧
    (":32A:251012USDNaN") ∈ mt103LinesAmt "NaN" mtScenario "251012" ∧
    generate_pain001_py "NaN" mtScenario "N" "T" =
      some (generate_pain001Amt "NaN" mtScenario "N" "T") ∧
    collectTexts "CtrlSum" (generate_pain001Amt "NaN" mtScenario "N" "T") =
      ["NaN", "NaN"] ∧
    collectTexts "InstdAmt" (generate_pain001Amt "NaN" mtScenario "N" "T") =
      ["NaN"] ∧
    generate_mt103_py "abc" mtScenario "251012" = none ∧
    generate_pain001_py "abc" mtScenario "N" "T" = none := by
  refine ⟨rfl, by decide, rfl, by decide, by decide, by decide, rfl⟩
